import Mathlib

/-!
Verification of the twitterapi-mcp server core (src/index.ts): the tool
dispatch and upstream-proxying layer. JavaScript values appearing in
argument bags, query parameters, request bodies and upstream response
bodies are modelled by the inductive `Json`; `undefined` is modelled by
`Option Json` with `none` for a missing value. State is the single
mutable field `loginCookie`; each invocation is a pure function from the
state, an upstream oracle (the response the HTTP layer would give to a
request), an operation name and an argument bag to a result, a trace of
issued upstream requests and the new cookie.
-/

/-- JSON-like JavaScript values (numbers restricted to integers, which covers
every value the dispatched code constructs or inspects). Object fields are an
ordered association list, so equality of `Json` values is equality with no
field dropped, renamed or reordered. -/
inductive Json where
  | null
  | bool (b : Bool)
  | num (n : Int)
  | str (s : String)
  | arr (elems : List Json)
  | obj (fields : List (String × Json))

/-- JavaScript truthiness of a value (`if (v)`). -/
def jsTruthy : Json → Bool
  | .null => false
  | .bool b => b
  | .num n => n ≠ 0
  | .str s => s ≠ ""
  | .arr _ => true
  | .obj _ => true

mutual

/-- JavaScript string coercion of a value, as performed by template literals
and by assigning a value into a string-valued header. -/
def jsToString : Json → String
  | .null => "null"
  | .bool b => cond b "true" "false"
  | .num n => toString n
  | .str s => s
  | .obj _ => "[object Object]"
  | .arr xs => jsToStringArr xs

/-- Array coercion joins the coerced elements with commas. -/
def jsToStringArr : List Json → String
  | [] => ""
  | [x] => jsToString x
  | x :: xs => jsToString x ++ "," ++ jsToStringArr xs

end

/-- First-match lookup in an association list, modelling property access on a
JavaScript object (keys of objects built by the code are distinct). -/
def lookupKey {α : Type} : List (String × α) → String → Option α
  | [], _ => none
  | (k, v) :: rest, key => if k = key then some v else lookupKey rest key

/-- Property access `j.f` on a JSON value: `none` models `undefined`
(non-object values have no named fields). -/
def Json.getField (j : Json) (key : String) : Option Json :=
  match j with
  | .obj fields => lookupKey fields key
  | _ => none

/-- The JavaScript `a || b` defaulting idiom applied to a possibly-missing
value, as in `loginData.user || \x7b\x7d`. -/
def jsOr (v : Option Json) (dflt : Json) : Json :=
  match v with
  | some x => if jsTruthy x then x else dflt
  | none => dflt

/-- Numeric value of a count-style argument: a missing value (`undefined`)
takes the TypeScript default parameter. The tool schemas type `count` as a
number; a present non-numeric value is outside the well-typed inputs the
claims quantify over and is treated as absent. -/
def numOrDefault (v : Option Json) (dflt : Int) : Int :=
  match v with
  | some (Json.num n) => n
  | some _ => dflt
  | none => dflt

/-- The protocol error codes the dispatcher uses (`McpError` codes). -/
inductive ErrorCode where
  | invalidParams
  | methodNotFound
  | internalError
deriving DecidableEq

/-- A thrown JavaScript error: either an `McpError` carrying a protocol code,
or a plain `Error` carrying only a message. -/
inductive Thrown where
  | mcpError (code : ErrorCode) (message : String)
  | jsError (message : String)
deriving DecidableEq

/-- The `message` property of a thrown error (both variants extend `Error`). -/
def Thrown.message : Thrown → String
  | .mcpError _ m => m
  | .jsError m => m

/-- The result envelope (`CallToolResult`): a sequence of text blocks. Each
block in the code is a type-text pair whose text is JSON.stringify(payload, null, 2);
the model carries the payload value itself, so equality of an element with an
upstream body states that the serialized text, when parsed, is that body. -/
structure CallToolResult where
  content : List Json

/-- Outcome of one invocation: a returned envelope or a thrown error. -/
inductive HandlerOut where
  | ok (r : CallToolResult)
  | thrown (e : Thrown)

/-- HTTP method of an upstream request. -/
inductive HttpMethod where
  | get
  | post
deriving DecidableEq

/-- One upstream HTTP request as the axios layer would issue it: method,
endpoint path, headers, query parameters (GET) and JSON body (POST). A
parameter or body value of `none` models a property whose value is
`undefined` (axios omits it at serialization). -/
structure UpstreamRequest where
  method : HttpMethod
  endpoint : String
  headers : List (String × String)
  params : List (String × Option Json)
  body : List (String × Option Json)

/-- The upstream outcome for a request: a 2xx response with a JSON body, or
an axios error carrying the response status and body when an HTTP response
exists (`none` for a pure network/transport failure) plus the axios error
message. -/
inductive UpstreamOutcome where
  | ok (body : Json)
  | err (response : Option (Nat × Json)) (axiosMessage : String)

/-- The upstream oracle: what the HTTP layer answers to each request. -/
def Oracle : Type := UpstreamRequest → UpstreamOutcome

/-- Result of `makeRequest`/`makePostRequest`: the response data or a thrown
error. -/
inductive Fetched where
  | ok (body : Json)
  | thrown (e : Thrown)

/-- The dispatcher state: the configured API key (immutable) and the held
session cookie (`loginCookie`, initially `none`). The cookie stores the raw
value taken from the login response body. -/
structure ServerState where
  apiKey : String
  loginCookie : Option Json

/-- Truthiness of the `loginCookie : string | null` field, as tested by
`if (this.loginCookie)`. -/
def cookieTruthy : Option Json → Bool
  | some v => jsTruthy v
  | none => false

/-- Headers attached to every upstream request: the axios instance defaults,
then `x-api-key` when the configured key is non-empty, then `Cookie` when a
session cookie is held. -/
def mkHeaders (st : ServerState) : List (String × String) :=
  [("Content-Type", "application/json"), ("User-Agent", "TwitterAPI-MCP-Server/1.0.0")]
    ++ (if st.apiKey = "" then [] else [("x-api-key", st.apiKey)])
    ++ (match st.loginCookie with
        | some v => if jsTruthy v then [("Cookie", jsToString v)] else []
        | none => [])

/-- The GET request `makeRequest` issues. -/
def mkGetRequest (st : ServerState) (endpoint : String)
    (params : List (String × Option Json)) : UpstreamRequest :=
  ⟨.get, endpoint, mkHeaders st, params, []⟩

/-- The POST request `makePostRequest` issues. -/
def mkPostRequest (st : ServerState) (endpoint : String)
    (body : List (String × Option Json)) : UpstreamRequest :=
  ⟨.post, endpoint, mkHeaders st, [], body⟩

/-- Message template of the error thrown on an axios failure. -/
def upstreamErrorMessage (statusCode : Nat) (errorMessage : String) : String :=
  "TwitterAPI.io API error (" ++ toString statusCode ++ "): " ++ errorMessage

/-- The status code used in the thrown message: the response status when an
HTTP response exists, else 500 (`error.response?.status || 500`). -/
def upstreamStatusCode (response : Option (Nat × Json)) : Nat :=
  (response.map Prod.fst).getD 500

/-- The human-readable part of the thrown message: the `error` field of the
upstream error body when present and truthy (coerced to a string by the
template literal), else the axios error message
(`error.response?.data?.error || error.message`). -/
def upstreamErrField (response : Option (Nat × Json)) (axiosMessage : String) : String :=
  match response with
  | some (_, data) =>
      match data.getField "error" with
      | some v => if jsTruthy v then jsToString v else axiosMessage
      | none => axiosMessage
  | none => axiosMessage

/-- The full message of the error thrown by the request helpers on an axios
failure. -/
def axiosFailMsg (response : Option (Nat × Json)) (axiosMessage : String) : String :=
  upstreamErrorMessage (upstreamStatusCode response) (upstreamErrField response axiosMessage)

/-- `makeRequest`: issue a GET with credential headers; return the response
data, or throw an `Error` annotated with status and message on failure. The
second component is the trace of issued requests. -/
def makeRequest (st : ServerState) (oracle : Oracle) (endpoint : String)
    (params : List (String × Option Json)) : Fetched × List UpstreamRequest :=
  match oracle (mkGetRequest st endpoint params) with
  | .ok body => (.ok body, [mkGetRequest st endpoint params])
  | .err resp ax => (.thrown (.jsError (axiosFailMsg resp ax)), [mkGetRequest st endpoint params])

/-- `makePostRequest`: issue a POST with credential headers; same outcome
mapping as `makeRequest`. -/
def makePostRequest (st : ServerState) (oracle : Oracle) (endpoint : String)
    (body : List (String × Option Json)) : Fetched × List UpstreamRequest :=
  match oracle (mkPostRequest st endpoint body) with
  | .ok data => (.ok data, [mkPostRequest st endpoint body])
  | .err resp ax => (.thrown (.jsError (axiosFailMsg resp ax)), [mkPostRequest st endpoint body])

/-- Result of one tool invocation: its outcome, the upstream requests it
issued, and the cookie state afterwards. -/
structure ExecResult where
  result : HandlerOut
  trace : List UpstreamRequest
  cookie : Option Json

/-- Shared shape of all nine read handlers: await the GET, wrap the response
data in a one-block envelope; a thrown error propagates; the cookie is
untouched. -/
def readHandler (st : ServerState) (oracle : Oracle) (endpoint : String)
    (params : List (String × Option Json)) : ExecResult :=
  match makeRequest st oracle endpoint params with
  | (.ok data, tr) => ⟨.ok ⟨[data]⟩, tr, st.loginCookie⟩
  | (.thrown e, tr) => ⟨.thrown e, tr, st.loginCookie⟩

/-- Handler `getUserByUsername`. -/
def getUserByUsername (st : ServerState) (oracle : Oracle) (username : Option Json) : ExecResult :=
  readHandler st oracle "/user/info" [("userName", username)]

/-- Handler `getUserById`. -/
def getUserById (st : ServerState) (oracle : Oracle) (userId : Option Json) : ExecResult :=
  readHandler st oracle "/user/info" [("user_id", userId)]

/-- Handler `getUserTweets`: `count` defaults to 10 and is clamped to 100 by
`Math.min`. -/
def getUserTweets (st : ServerState) (oracle : Oracle) (username count : Option Json) : ExecResult :=
  readHandler st oracle "/user/last_tweets"
    [("userName", username), ("count", some (Json.num (min (numOrDefault count 10) 100)))]

/-- Handler `searchTweets`: `count` defaults to 10 and is clamped to 100;
`result_type` defaults to the string recent. -/
def searchTweets (st : ServerState) (oracle : Oracle)
    (query count resultType : Option Json) : ExecResult :=
  readHandler st oracle "/tweet/advanced_search"
    [("query", query), ("count", some (Json.num (min (numOrDefault count 10) 100))),
     ("result_type", some (resultType.getD (Json.str "recent")))]

/-- Handler `getTweetById`. -/
def getTweetById (st : ServerState) (oracle : Oracle) (tweetId : Option Json) : ExecResult :=
  readHandler st oracle "/tweets" [("tweet_id", tweetId)]

/-- Handler `getTweetReplies`: `count` defaults to 10 and is clamped to 100. -/
def getTweetReplies (st : ServerState) (oracle : Oracle) (tweetId count : Option Json) : ExecResult :=
  readHandler st oracle "/tweet/replies"
    [("id", tweetId), ("count", some (Json.num (min (numOrDefault count 10) 100)))]

/-- Handler `getUserFollowers`: `count` defaults to 20 and is clamped to 100. -/
def getUserFollowers (st : ServerState) (oracle : Oracle) (username count : Option Json) : ExecResult :=
  readHandler st oracle "/user/followers"
    [("userName", username), ("count", some (Json.num (min (numOrDefault count 20) 100)))]

/-- Handler `getUserFollowing`: `count` defaults to 20 and is clamped to 100. -/
def getUserFollowing (st : ServerState) (oracle : Oracle) (username count : Option Json) : ExecResult :=
  readHandler st oracle "/user/followings"
    [("userName", username), ("count", some (Json.num (min (numOrDefault count 20) 100)))]

/-- Handler `searchUsers`: `count` defaults to 10 and is clamped to 50. -/
def searchUsers (st : ServerState) (oracle : Oracle) (query count : Option Json) : ExecResult :=
  readHandler st oracle "/user/search"
    [("query", query), ("count", some (Json.num (min (numOrDefault count 10) 50)))]

/-- Handler `loginUser`: POST the credentials; on success store the response
cookie when it is truthy and return a success payload; any thrown error is
caught and converted into a success-shaped envelope whose payload has
`success: false` and the error message. -/
def loginUser (st : ServerState) (oracle : Oracle) (username password : Option Json) : ExecResult :=
  match makePostRequest st oracle "/user_login_v2"
      [("userName", username), ("password", password)] with
  | (.ok loginData, tr) =>
      ⟨.ok ⟨[Json.obj [("success", Json.bool true), ("message", Json.str "Login successful"),
          ("user", jsOr (loginData.getField "user") (Json.obj []))]]⟩,
        tr,
        match loginData.getField "cookie" with
        | some v => if jsTruthy v then some v else st.loginCookie
        | none => st.loginCookie⟩
  | (.thrown e, tr) =>
      ⟨.ok ⟨[Json.obj [("success", Json.bool false), ("error", Json.str e.message)]]⟩,
        tr, st.loginCookie⟩

/-- Handler `createTweet`: guard on the held cookie before any upstream call
(`if (!this.loginCookie) throw`); then POST the tweet body, attaching
`reply_to` only when the argument is truthy. -/
def createTweet (st : ServerState) (oracle : Oracle) (text replyTo : Option Json) : ExecResult :=
  if cookieTruthy st.loginCookie then
    match makePostRequest st oracle "/create_tweet_v2"
        ([("text", text)] ++ (match replyTo with
          | some v => if jsTruthy v then [("reply_to", some v)] else []
          | none => [])) with
    | (.ok data, tr) => ⟨.ok ⟨[data]⟩, tr, st.loginCookie⟩
    | (.thrown e, tr) => ⟨.thrown e, tr, st.loginCookie⟩
  else
    ⟨.thrown (.jsError "Must login first before creating tweets"), [], st.loginCookie⟩

/-- The switch over tool names, with each argument extracted from the bag
exactly as the `CallTool` handler passes it; an unknown name throws
MethodNotFound with the name in the message. -/
def dispatchTool (st : ServerState) (oracle : Oracle) (name : String) (bag : List (String × Json)) :
    ExecResult :=
  if name = "get_user_by_username" then
    getUserByUsername st oracle (lookupKey bag "username")
  else if name = "get_user_by_id" then
    getUserById st oracle (lookupKey bag "user_id")
  else if name = "get_user_tweets" then
    getUserTweets st oracle (lookupKey bag "username") (lookupKey bag "count")
  else if name = "search_tweets" then
    searchTweets st oracle (lookupKey bag "query") (lookupKey bag "count")
      (lookupKey bag "result_type")
  else if name = "get_tweet_by_id" then
    getTweetById st oracle (lookupKey bag "tweet_id")
  else if name = "get_tweet_replies" then
    getTweetReplies st oracle (lookupKey bag "tweet_id") (lookupKey bag "count")
  else if name = "get_user_followers" then
    getUserFollowers st oracle (lookupKey bag "username") (lookupKey bag "count")
  else if name = "get_user_following" then
    getUserFollowing st oracle (lookupKey bag "username") (lookupKey bag "count")
  else if name = "search_users" then
    searchUsers st oracle (lookupKey bag "query") (lookupKey bag "count")
  else if name = "login_user" then
    loginUser st oracle (lookupKey bag "username") (lookupKey bag "password")
  else if name = "create_tweet" then
    createTweet st oracle (lookupKey bag "text") (lookupKey bag "reply_to")
  else
    ⟨.thrown (.mcpError .methodNotFound ("Unknown tool: " ++ name)), [], st.loginCookie⟩

/-- The catch wrapper of the `CallTool` handler: an `McpError` is rethrown
unchanged; any other thrown error is converted to an InternalError whose
message wraps the original message. -/
def wrapCatch (r : ExecResult) : ExecResult :=
  match r.result with
  | .thrown (.jsError m) =>
      ⟨.thrown (.mcpError .internalError ("TwitterAPI.io error: " ++ m)), r.trace, r.cookie⟩
  | _ => r

/-- One full `CallTool` invocation: a missing arguments object throws
InvalidParams before dispatch; then the switch runs under the catch. -/
def handleCallTool (st : ServerState) (oracle : Oracle) (name : String)
    (args : Option (List (String × Json))) : ExecResult :=
  wrapCatch (match args with
    | none => ⟨.thrown (.mcpError .invalidParams "Missing arguments"), [], st.loginCookie⟩
    | some bag => dispatchTool st oracle name bag)

/-- The state after an invocation. -/
def afterCall (st : ServerState) (r : ExecResult) : ServerState :=
  { st with loginCookie := r.cookie }

/-- One element of a call sequence: name, argument bag and the upstream
responses in effect for that call. -/
structure CallSpec where
  name : String
  args : Option (List (String × Json))
  oracle : Oracle

/-- Run a sequence of invocations from a state, threading the cookie. -/
def runCalls (st : ServerState) : List CallSpec → ServerState
  | [] => st
  | c :: rest => runCalls (afterCall st (handleCallTool st c.oracle c.name c.args)) rest

/-- The protocol error code of an outcome, when it is a thrown `McpError`. -/
def errCode : HandlerOut → Option ErrorCode
  | .thrown (.mcpError c _) => some c
  | _ => none

/-- The count query parameter of the single upstream request of a result. -/
def forwardedCount (r : ExecResult) : Option (Option Json) :=
  match r.trace with
  | [req] => lookupKey req.params "count"
  | _ => none

/-- The count forwarded by one invocation of a named tool. -/
def forwardedCountFor (st : ServerState) (oracle : Oracle) (bag : List (String × Json))
    (name : String) : Option (Option Json) :=
  forwardedCount (handleCallTool st oracle name (some bag))

/-- The nine read operations of the catalog. -/
def readOpNames : List String :=
  ["get_user_by_username", "get_user_by_id", "get_user_tweets", "search_tweets",
   "get_tweet_by_id", "get_tweet_replies", "get_user_followers", "get_user_following",
   "search_users"]

/-- All eleven operations of the catalog. -/
def catalogNames : List String :=
  readOpNames ++ ["login_user", "create_tweet"]

/-! Structural lemmas about the wrapper, the request helpers and the handlers. -/

theorem wrapCatch_trace (r : ExecResult) : (wrapCatch r).trace = r.trace := by
  rcases r with ⟨res, tr, ck⟩
  cases res with
  | ok r => rfl
  | thrown e => cases e with
    | mcpError c m => rfl
    | jsError m => rfl

theorem wrapCatch_cookie (r : ExecResult) : (wrapCatch r).cookie = r.cookie := by
  rcases r with ⟨res, tr, ck⟩
  cases res with
  | ok r => rfl
  | thrown e => cases e with
    | mcpError c m => rfl
    | jsError m => rfl

theorem wrapCatch_ok (r : ExecResult) (env : CallToolResult) (h : r.result = .ok env) :
    (wrapCatch r).result = .ok env := by
  rcases r with ⟨res, tr, ck⟩
  simp only at h
  subst h
  rfl

theorem wrapCatch_jsError (r : ExecResult) (m : String) (h : r.result = .thrown (.jsError m)) :
    (wrapCatch r).result = .thrown (.mcpError .internalError ("TwitterAPI.io error: " ++ m)) := by
  rcases r with ⟨res, tr, ck⟩
  simp only at h
  subst h
  rfl

theorem readHandler_trace (st : ServerState) (oracle : Oracle) (ep : String)
    (ps : List (String × Option Json)) :
    (readHandler st oracle ep ps).trace = [mkGetRequest st ep ps] := by
  unfold readHandler makeRequest
  cases oracle (mkGetRequest st ep ps) <;> rfl

theorem readHandler_cookie (st : ServerState) (oracle : Oracle) (ep : String)
    (ps : List (String × Option Json)) :
    (readHandler st oracle ep ps).cookie = st.loginCookie := by
  unfold readHandler makeRequest
  cases oracle (mkGetRequest st ep ps) <;> rfl

theorem readHandler_ok (st : ServerState) (oracle : Oracle) (ep : String)
    (ps : List (String × Option Json)) (body : Json)
    (h : oracle (mkGetRequest st ep ps) = .ok body) :
    (readHandler st oracle ep ps).result = .ok ⟨[body]⟩ := by
  unfold readHandler makeRequest
  rw [h]

theorem readHandler_err (st : ServerState) (oracle : Oracle) (ep : String)
    (ps : List (String × Option Json)) (resp : Option (Nat × Json)) (ax : String)
    (h : oracle (mkGetRequest st ep ps) = .err resp ax) :
    (readHandler st oracle ep ps).result = .thrown (.jsError (axiosFailMsg resp ax)) := by
  unfold readHandler makeRequest
  rw [h]

theorem loginUser_trace (st : ServerState) (oracle : Oracle) (u p : Option Json) :
    (loginUser st oracle u p).trace =
      [mkPostRequest st "/user_login_v2" [("userName", u), ("password", p)]] := by
  unfold loginUser makePostRequest
  cases oracle (mkPostRequest st "/user_login_v2" [("userName", u), ("password", p)]) <;> rfl

theorem loginUser_ok (st : ServerState) (oracle : Oracle) (u p : Option Json) (body : Json)
    (h : oracle (mkPostRequest st "/user_login_v2" [("userName", u), ("password", p)]) = .ok body) :
    (loginUser st oracle u p).result =
      .ok ⟨[Json.obj [("success", Json.bool true), ("message", Json.str "Login successful"),
        ("user", jsOr (Json.getField body "user") (Json.obj []))]]⟩ ∧
    (loginUser st oracle u p).cookie =
      (match Json.getField body "cookie" with
        | some v => if jsTruthy v then some v else st.loginCookie
        | none => st.loginCookie) := by
  unfold loginUser makePostRequest
  rw [h]
  exact ⟨rfl, rfl⟩

theorem loginUser_err (st : ServerState) (oracle : Oracle) (u p : Option Json)
    (resp : Option (Nat × Json)) (ax : String)
    (h : oracle (mkPostRequest st "/user_login_v2" [("userName", u), ("password", p)]) =
      .err resp ax) :
    (loginUser st oracle u p).result =
      .ok ⟨[Json.obj [("success", Json.bool false), ("error", Json.str (axiosFailMsg resp ax))]]⟩ ∧
    (loginUser st oracle u p).cookie = st.loginCookie := by
  unfold loginUser makePostRequest
  rw [h]
  exact ⟨rfl, rfl⟩

theorem createTweet_cookie (st : ServerState) (oracle : Oracle) (t r : Option Json) :
    (createTweet st oracle t r).cookie = st.loginCookie := by
  unfold createTweet makePostRequest
  by_cases h : cookieTruthy st.loginCookie
  · rw [if_pos h]
    cases oracle (mkPostRequest st "/create_tweet_v2" ([("text", t)] ++ (match r with
      | some v => if jsTruthy v then [("reply_to", some v)] else []
      | none => []))) <;> rfl
  · rw [if_neg h]

theorem createTweet_noauth (st : ServerState) (oracle : Oracle) (t r : Option Json)
    (h : cookieTruthy st.loginCookie = false) :
    createTweet st oracle t r =
      ⟨.thrown (.jsError "Must login first before creating tweets"), [], st.loginCookie⟩ := by
  unfold createTweet
  rw [if_neg (by simp [h])]

theorem createTweet_auth_trace (st : ServerState) (oracle : Oracle) (t r : Option Json)
    (h : cookieTruthy st.loginCookie = true) :
    (createTweet st oracle t r).trace =
      [mkPostRequest st "/create_tweet_v2" ([("text", t)] ++ (match r with
        | some v => if jsTruthy v then [("reply_to", some v)] else []
        | none => []))] := by
  unfold createTweet makePostRequest
  rw [if_pos h]
  cases oracle (mkPostRequest st "/create_tweet_v2" ([("text", t)] ++ (match r with
    | some v => if jsTruthy v then [("reply_to", some v)] else []
    | none => []))) <;> rfl

theorem createTweet_auth_err (st : ServerState) (oracle : Oracle) (t r : Option Json)
    (resp : Option (Nat × Json)) (ax : String)
    (h : cookieTruthy st.loginCookie = true)
    (ho : ∀ req, oracle req = .err resp ax) :
    (createTweet st oracle t r).result = .thrown (.jsError (axiosFailMsg resp ax)) := by
  unfold createTweet makePostRequest
  rw [if_pos h, ho]

theorem mem_readHandler_headers (st : ServerState) (oracle : Oracle) (ep : String)
    (ps : List (String × Option Json)) (req : UpstreamRequest)
    (h : req ∈ (readHandler st oracle ep ps).trace) : req.headers = mkHeaders st := by
  rw [readHandler_trace] at h
  simp only [List.mem_singleton] at h
  subst h
  rfl

theorem mem_loginUser_headers (st : ServerState) (oracle : Oracle) (u p : Option Json)
    (req : UpstreamRequest) (h : req ∈ (loginUser st oracle u p).trace) :
    req.headers = mkHeaders st := by
  rw [loginUser_trace] at h
  simp only [List.mem_singleton] at h
  subst h
  rfl

theorem mem_createTweet_headers (st : ServerState) (oracle : Oracle) (t r : Option Json)
    (req : UpstreamRequest) (h : req ∈ (createTweet st oracle t r).trace) :
    req.headers = mkHeaders st := by
  by_cases hc : cookieTruthy st.loginCookie
  · rw [createTweet_auth_trace st oracle t r hc] at h
    simp only [List.mem_singleton] at h
    subst h
    rfl
  · rw [createTweet_noauth st oracle t r (by simpa using hc)] at h
    simp at h

theorem mem_dispatchTool_headers (st : ServerState) (oracle : Oracle) (name : String)
    (bag : List (String × Json)) (req : UpstreamRequest)
    (h : req ∈ (dispatchTool st oracle name bag).trace) : req.headers = mkHeaders st := by
  unfold dispatchTool at h
  by_cases h1 : name = "get_user_by_username"
  · rw [if_pos h1] at h; exact mem_readHandler_headers _ _ _ _ _ h
  rw [if_neg h1] at h
  by_cases h2 : name = "get_user_by_id"
  · rw [if_pos h2] at h; exact mem_readHandler_headers _ _ _ _ _ h
  rw [if_neg h2] at h
  by_cases h3 : name = "get_user_tweets"
  · rw [if_pos h3] at h; exact mem_readHandler_headers _ _ _ _ _ h
  rw [if_neg h3] at h
  by_cases h4 : name = "search_tweets"
  · rw [if_pos h4] at h; exact mem_readHandler_headers _ _ _ _ _ h
  rw [if_neg h4] at h
  by_cases h5 : name = "get_tweet_by_id"
  · rw [if_pos h5] at h; exact mem_readHandler_headers _ _ _ _ _ h
  rw [if_neg h5] at h
  by_cases h6 : name = "get_tweet_replies"
  · rw [if_pos h6] at h; exact mem_readHandler_headers _ _ _ _ _ h
  rw [if_neg h6] at h
  by_cases h7 : name = "get_user_followers"
  · rw [if_pos h7] at h; exact mem_readHandler_headers _ _ _ _ _ h
  rw [if_neg h7] at h
  by_cases h8 : name = "get_user_following"
  · rw [if_pos h8] at h; exact mem_readHandler_headers _ _ _ _ _ h
  rw [if_neg h8] at h
  by_cases h9 : name = "search_users"
  · rw [if_pos h9] at h; exact mem_readHandler_headers _ _ _ _ _ h
  rw [if_neg h9] at h
  by_cases h10 : name = "login_user"
  · rw [if_pos h10] at h; exact mem_loginUser_headers _ _ _ _ _ h
  rw [if_neg h10] at h
  by_cases h11 : name = "create_tweet"
  · rw [if_pos h11] at h; exact mem_createTweet_headers _ _ _ _ _ h
  rw [if_neg h11] at h
  simp at h

theorem mem_handleCallTool_headers (st : ServerState) (oracle : Oracle) (name : String)
    (args : Option (List (String × Json))) (req : UpstreamRequest)
    (h : req ∈ (handleCallTool st oracle name args).trace) : req.headers = mkHeaders st := by
  unfold handleCallTool at h
  rw [wrapCatch_trace] at h
  cases args with
  | none => simp at h
  | some bag => exact mem_dispatchTool_headers _ _ _ _ _ h

theorem dispatchTool_cookie_nonlogin (st : ServerState) (oracle : Oracle) (name : String)
    (bag : List (String × Json)) (hn : name ≠ "login_user") :
    (dispatchTool st oracle name bag).cookie = st.loginCookie := by
  unfold dispatchTool
  by_cases h1 : name = "get_user_by_username"
  · rw [if_pos h1]; exact readHandler_cookie _ _ _ _
  rw [if_neg h1]
  by_cases h2 : name = "get_user_by_id"
  · rw [if_pos h2]; exact readHandler_cookie _ _ _ _
  rw [if_neg h2]
  by_cases h3 : name = "get_user_tweets"
  · rw [if_pos h3]; exact readHandler_cookie _ _ _ _
  rw [if_neg h3]
  by_cases h4 : name = "search_tweets"
  · rw [if_pos h4]; exact readHandler_cookie _ _ _ _
  rw [if_neg h4]
  by_cases h5 : name = "get_tweet_by_id"
  · rw [if_pos h5]; exact readHandler_cookie _ _ _ _
  rw [if_neg h5]
  by_cases h6 : name = "get_tweet_replies"
  · rw [if_pos h6]; exact readHandler_cookie _ _ _ _
  rw [if_neg h6]
  by_cases h7 : name = "get_user_followers"
  · rw [if_pos h7]; exact readHandler_cookie _ _ _ _
  rw [if_neg h7]
  by_cases h8 : name = "get_user_following"
  · rw [if_pos h8]; exact readHandler_cookie _ _ _ _
  rw [if_neg h8]
  by_cases h9 : name = "search_users"
  · rw [if_pos h9]; exact readHandler_cookie _ _ _ _
  rw [if_neg h9]
  rw [if_neg hn]
  by_cases h11 : name = "create_tweet"
  · rw [if_pos h11]; exact createTweet_cookie _ _ _ _
  rw [if_neg h11]

theorem loginUser_cookie_cases (st : ServerState) (oracle : Oracle) (u p : Option Json) :
    (loginUser st oracle u p).cookie = st.loginCookie ∨
    ∃ body v, oracle (mkPostRequest st "/user_login_v2" [("userName", u), ("password", p)]) =
        .ok body ∧
      Json.getField body "cookie" = some v ∧ jsTruthy v = true ∧
      (loginUser st oracle u p).cookie = some v := by
  cases ho : oracle (mkPostRequest st "/user_login_v2" [("userName", u), ("password", p)]) with
  | ok body =>
    have hl := (loginUser_ok st oracle u p body ho).2
    cases hc : Json.getField body "cookie" with
    | none =>
      left
      rw [hl, hc]
    | some v =>
      by_cases hv : jsTruthy v
      · right
        exact ⟨body, v, rfl, hc, hv, by rw [hl, hc]; simp [hv]⟩
      · left
        rw [hl, hc]
        simp [hv]
  | err resp ax =>
    left
    exact (loginUser_err st oracle u p resp ax ho).2

theorem handleCallTool_some (st : ServerState) (oracle : Oracle) (name : String)
    (bag : List (String × Json)) :
    handleCallTool st oracle name (some bag) = wrapCatch (dispatchTool st oracle name bag) := rfl

theorem handleCallTool_cookie_step (st : ServerState) (oracle : Oracle) (name : String)
    (bag : List (String × Json)) :
    (handleCallTool st oracle name (some bag)).cookie = st.loginCookie ∨
    (name = "login_user" ∧ ∃ body v,
      oracle (mkPostRequest st "/user_login_v2"
        [("userName", lookupKey bag "username"), ("password", lookupKey bag "password")]) =
          .ok body ∧
      Json.getField body "cookie" = some v ∧ jsTruthy v = true ∧
      (handleCallTool st oracle name (some bag)).cookie = some v) := by
  rw [handleCallTool_some, wrapCatch_cookie]
  by_cases hn : name = "login_user"
  · subst hn
    have hd : dispatchTool st oracle "login_user" bag =
        loginUser st oracle (lookupKey bag "username") (lookupKey bag "password") := by
      unfold dispatchTool
      rfl
    rw [hd]
    rcases loginUser_cookie_cases st oracle (lookupKey bag "username")
        (lookupKey bag "password") with h | ⟨body, v, h1, h2, h3, h4⟩
    · exact Or.inl h
    · exact Or.inr ⟨rfl, body, v, h1, h2, h3, h4⟩
  · exact Or.inl (dispatchTool_cookie_nonlogin st oracle name bag hn)

theorem handleCallTool_cookie_noargs (st : ServerState) (oracle : Oracle) (name : String) :
    (handleCallTool st oracle name none).cookie = st.loginCookie := by
  unfold handleCallTool
  rw [wrapCatch_cookie]

theorem cookieTruthy_step (st : ServerState) (oracle : Oracle) (name : String)
    (args : Option (List (String × Json))) (h : cookieTruthy st.loginCookie = true) :
    cookieTruthy (handleCallTool st oracle name args).cookie = true := by
  cases args with
  | none => rw [handleCallTool_cookie_noargs]; exact h
  | some bag =>
    rcases handleCallTool_cookie_step st oracle name bag with hc | ⟨_, _, v, _, _, hv, hc⟩
    · rw [hc]; exact h
    · rw [hc]; simpa [cookieTruthy] using hv

theorem dispatch_get_user_by_username (st : ServerState) (oracle : Oracle)
    (bag : List (String × Json)) :
    dispatchTool st oracle "get_user_by_username" bag =
      getUserByUsername st oracle (lookupKey bag "username") := rfl

theorem dispatch_get_user_by_id (st : ServerState) (oracle : Oracle)
    (bag : List (String × Json)) :
    dispatchTool st oracle "get_user_by_id" bag =
      getUserById st oracle (lookupKey bag "user_id") := rfl

theorem dispatch_get_user_tweets (st : ServerState) (oracle : Oracle)
    (bag : List (String × Json)) :
    dispatchTool st oracle "get_user_tweets" bag =
      getUserTweets st oracle (lookupKey bag "username") (lookupKey bag "count") := rfl

theorem dispatch_search_tweets (st : ServerState) (oracle : Oracle)
    (bag : List (String × Json)) :
    dispatchTool st oracle "search_tweets" bag =
      searchTweets st oracle (lookupKey bag "query") (lookupKey bag "count")
        (lookupKey bag "result_type") := rfl

theorem dispatch_get_tweet_by_id (st : ServerState) (oracle : Oracle)
    (bag : List (String × Json)) :
    dispatchTool st oracle "get_tweet_by_id" bag =
      getTweetById st oracle (lookupKey bag "tweet_id") := rfl

theorem dispatch_get_tweet_replies (st : ServerState) (oracle : Oracle)
    (bag : List (String × Json)) :
    dispatchTool st oracle "get_tweet_replies" bag =
      getTweetReplies st oracle (lookupKey bag "tweet_id") (lookupKey bag "count") := rfl

theorem dispatch_get_user_followers (st : ServerState) (oracle : Oracle)
    (bag : List (String × Json)) :
    dispatchTool st oracle "get_user_followers" bag =
      getUserFollowers st oracle (lookupKey bag "username") (lookupKey bag "count") := rfl

theorem dispatch_get_user_following (st : ServerState) (oracle : Oracle)
    (bag : List (String × Json)) :
    dispatchTool st oracle "get_user_following" bag =
      getUserFollowing st oracle (lookupKey bag "username") (lookupKey bag "count") := rfl

theorem dispatch_search_users (st : ServerState) (oracle : Oracle)
    (bag : List (String × Json)) :
    dispatchTool st oracle "search_users" bag =
      searchUsers st oracle (lookupKey bag "query") (lookupKey bag "count") := rfl

theorem dispatch_login_user (st : ServerState) (oracle : Oracle)
    (bag : List (String × Json)) :
    dispatchTool st oracle "login_user" bag =
      loginUser st oracle (lookupKey bag "username") (lookupKey bag "password") := rfl

theorem dispatch_create_tweet (st : ServerState) (oracle : Oracle)
    (bag : List (String × Json)) :
    dispatchTool st oracle "create_tweet" bag =
      createTweet st oracle (lookupKey bag "text") (lookupKey bag "reply_to") := rfl

theorem mkHeaders_cookie_mem (st : ServerState) (v : Json)
    (h1 : st.loginCookie = some v) (h2 : jsTruthy v = true) :
    ("Cookie", jsToString v) ∈ mkHeaders st := by
  simp [mkHeaders, h1, h2]

theorem mkHeaders_apikey_iff (st : ServerState) :
    ("x-api-key", st.apiKey) ∈ mkHeaders st ↔ st.apiKey ≠ "" := by
  unfold mkHeaders
  by_cases hk : st.apiKey = ""
  · simp only [hk, if_pos rfl]
    constructor
    · intro hmem
      exfalso
      cases hc : st.loginCookie with
      | none => simp [hc] at hmem
      | some v =>
        by_cases hv : jsTruthy v
        · simp [hc, hv] at hmem
        · simp [hc, hv] at hmem
    · intro hne
      exact absurd rfl hne
  · simp only [if_neg hk]
    constructor
    · intro _
      exact hk
    · intro _
      refine List.mem_append_left _ (List.mem_append_right _ ?_)
      simp

theorem runCalls_cookieTruthy (calls : List CallSpec) :
    ∀ st : ServerState, cookieTruthy st.loginCookie = true →
      cookieTruthy (runCalls st calls).loginCookie = true := by
  induction calls with
  | nil =>
    intro st h
    exact h
  | cons c rest ih =>
    intro st h
    unfold runCalls
    exact ih _ (by simpa [afterCall] using cookieTruthy_step st c.oracle c.name c.args h)

theorem handle_read_ok (st : ServerState) (oracle : Oracle) (bag : List (String × Json))
    (name : String) (body : Json)
    (hmem : name ∈ readOpNames) (h : ∀ req, oracle req = .ok body) :
    (handleCallTool st oracle name (some bag)).result = .ok ⟨[body]⟩ := by
  simp only [readOpNames] at hmem
  fin_cases hmem
  · rw [handleCallTool_some, dispatch_get_user_by_username]
    exact wrapCatch_ok _ _ (readHandler_ok _ _ _ _ _ (h _))
  · rw [handleCallTool_some, dispatch_get_user_by_id]
    exact wrapCatch_ok _ _ (readHandler_ok _ _ _ _ _ (h _))
  · rw [handleCallTool_some, dispatch_get_user_tweets]
    exact wrapCatch_ok _ _ (readHandler_ok _ _ _ _ _ (h _))
  · rw [handleCallTool_some, dispatch_search_tweets]
    exact wrapCatch_ok _ _ (readHandler_ok _ _ _ _ _ (h _))
  · rw [handleCallTool_some, dispatch_get_tweet_by_id]
    exact wrapCatch_ok _ _ (readHandler_ok _ _ _ _ _ (h _))
  · rw [handleCallTool_some, dispatch_get_tweet_replies]
    exact wrapCatch_ok _ _ (readHandler_ok _ _ _ _ _ (h _))
  · rw [handleCallTool_some, dispatch_get_user_followers]
    exact wrapCatch_ok _ _ (readHandler_ok _ _ _ _ _ (h _))
  · rw [handleCallTool_some, dispatch_get_user_following]
    exact wrapCatch_ok _ _ (readHandler_ok _ _ _ _ _ (h _))
  · rw [handleCallTool_some, dispatch_search_users]
    exact wrapCatch_ok _ _ (readHandler_ok _ _ _ _ _ (h _))

theorem handle_read_err (st : ServerState) (oracle : Oracle) (bag : List (String × Json))
    (name : String) (resp : Option (Nat × Json)) (ax : String)
    (hmem : name ∈ readOpNames) (h : ∀ req, oracle req = .err resp ax) :
    (handleCallTool st oracle name (some bag)).result =
      .thrown (.mcpError .internalError ("TwitterAPI.io error: " ++ axiosFailMsg resp ax)) := by
  simp only [readOpNames] at hmem
  fin_cases hmem
  · rw [handleCallTool_some, dispatch_get_user_by_username]
    exact wrapCatch_jsError _ _ (readHandler_err _ _ _ _ _ _ (h _))
  · rw [handleCallTool_some, dispatch_get_user_by_id]
    exact wrapCatch_jsError _ _ (readHandler_err _ _ _ _ _ _ (h _))
  · rw [handleCallTool_some, dispatch_get_user_tweets]
    exact wrapCatch_jsError _ _ (readHandler_err _ _ _ _ _ _ (h _))
  · rw [handleCallTool_some, dispatch_search_tweets]
    exact wrapCatch_jsError _ _ (readHandler_err _ _ _ _ _ _ (h _))
  · rw [handleCallTool_some, dispatch_get_tweet_by_id]
    exact wrapCatch_jsError _ _ (readHandler_err _ _ _ _ _ _ (h _))
  · rw [handleCallTool_some, dispatch_get_tweet_replies]
    exact wrapCatch_jsError _ _ (readHandler_err _ _ _ _ _ _ (h _))
  · rw [handleCallTool_some, dispatch_get_user_followers]
    exact wrapCatch_jsError _ _ (readHandler_err _ _ _ _ _ _ (h _))
  · rw [handleCallTool_some, dispatch_get_user_following]
    exact wrapCatch_jsError _ _ (readHandler_err _ _ _ _ _ _ (h _))
  · rw [handleCallTool_some, dispatch_search_users]
    exact wrapCatch_jsError _ _ (readHandler_err _ _ _ _ _ _ (h _))

theorem forwardedCount_eq (st : ServerState) (oracle : Oracle) (name ep : String)
    (ps : List (String × Option Json)) (bag : List (String × Json))
    (h : (handleCallTool st oracle name (some bag)).trace = [mkGetRequest st ep ps]) :
    forwardedCountFor st oracle bag name = lookupKey ps "count" := by
  unfold forwardedCountFor forwardedCount
  rw [h]
  rfl

/-- Claim C1: for every count-bearing operation and every supplied numeric
count value, the count forwarded to the upstream request equals
min(count, operation maximum): 100 for all except search_users whose maximum
is 50; an oversized count is never rejected. When count is absent the
documented default is forwarded: 10 for get_user_tweets, search_tweets,
get_tweet_replies and search_users, and 20 for get_user_followers and
get_user_following. -/
theorem count_clamping_c1 (st : ServerState) (oracle : Oracle)
    (bag : List (String × Json)) (n : Int) :
    (lookupKey bag "count" = some (Json.num n) →
      forwardedCountFor st oracle bag "get_user_tweets" = some (some (Json.num (min n 100))) ∧
      forwardedCountFor st oracle bag "search_tweets" = some (some (Json.num (min n 100))) ∧
      forwardedCountFor st oracle bag "get_tweet_replies" = some (some (Json.num (min n 100))) ∧
      forwardedCountFor st oracle bag "get_user_followers" = some (some (Json.num (min n 100))) ∧
      forwardedCountFor st oracle bag "get_user_following" = some (some (Json.num (min n 100))) ∧
      forwardedCountFor st oracle bag "search_users" = some (some (Json.num (min n 50)))) ∧
    (lookupKey bag "count" = none →
      forwardedCountFor st oracle bag "get_user_tweets" = some (some (Json.num 10)) ∧
      forwardedCountFor st oracle bag "search_tweets" = some (some (Json.num 10)) ∧
      forwardedCountFor st oracle bag "get_tweet_replies" = some (some (Json.num 10)) ∧
      forwardedCountFor st oracle bag "get_user_followers" = some (some (Json.num 20)) ∧
      forwardedCountFor st oracle bag "get_user_following" = some (some (Json.num 20)) ∧
      forwardedCountFor st oracle bag "search_users" = some (some (Json.num 10))) := by
  constructor
  · intro hcount
    refine ⟨?_, ?_, ?_, ?_, ?_, ?_⟩
    · rw [forwardedCount_eq st oracle _ _ _ bag
        (by rw [handleCallTool_some, dispatch_get_user_tweets, wrapCatch_trace]
            exact readHandler_trace _ _ _ _)]
      simp [lookupKey, numOrDefault, hcount]
    · rw [forwardedCount_eq st oracle _ _ _ bag
        (by rw [handleCallTool_some, dispatch_search_tweets, wrapCatch_trace]
            exact readHandler_trace _ _ _ _)]
      simp [lookupKey, numOrDefault, hcount]
    · rw [forwardedCount_eq st oracle _ _ _ bag
        (by rw [handleCallTool_some, dispatch_get_tweet_replies, wrapCatch_trace]
            exact readHandler_trace _ _ _ _)]
      simp [lookupKey, numOrDefault, hcount]
    · rw [forwardedCount_eq st oracle _ _ _ bag
        (by rw [handleCallTool_some, dispatch_get_user_followers, wrapCatch_trace]
            exact readHandler_trace _ _ _ _)]
      simp [lookupKey, numOrDefault, hcount]
    · rw [forwardedCount_eq st oracle _ _ _ bag
        (by rw [handleCallTool_some, dispatch_get_user_following, wrapCatch_trace]
            exact readHandler_trace _ _ _ _)]
      simp [lookupKey, numOrDefault, hcount]
    · rw [forwardedCount_eq st oracle _ _ _ bag
        (by rw [handleCallTool_some, dispatch_search_users, wrapCatch_trace]
            exact readHandler_trace _ _ _ _)]
      simp [lookupKey, numOrDefault, hcount]
  · intro hcount
    refine ⟨?_, ?_, ?_, ?_, ?_, ?_⟩
    · rw [forwardedCount_eq st oracle _ _ _ bag
        (by rw [handleCallTool_some, dispatch_get_user_tweets, wrapCatch_trace]
            exact readHandler_trace _ _ _ _)]
      simp [lookupKey, numOrDefault, hcount, min_def]
    · rw [forwardedCount_eq st oracle _ _ _ bag
        (by rw [handleCallTool_some, dispatch_search_tweets, wrapCatch_trace]
            exact readHandler_trace _ _ _ _)]
      simp [lookupKey, numOrDefault, hcount, min_def]
    · rw [forwardedCount_eq st oracle _ _ _ bag
        (by rw [handleCallTool_some, dispatch_get_tweet_replies, wrapCatch_trace]
            exact readHandler_trace _ _ _ _)]
      simp [lookupKey, numOrDefault, hcount, min_def]
    · rw [forwardedCount_eq st oracle _ _ _ bag
        (by rw [handleCallTool_some, dispatch_get_user_followers, wrapCatch_trace]
            exact readHandler_trace _ _ _ _)]
      simp [lookupKey, numOrDefault, hcount, min_def]
    · rw [forwardedCount_eq st oracle _ _ _ bag
        (by rw [handleCallTool_some, dispatch_get_user_following, wrapCatch_trace]
            exact readHandler_trace _ _ _ _)]
      simp [lookupKey, numOrDefault, hcount, min_def]
    · rw [forwardedCount_eq st oracle _ _ _ bag
        (by rw [handleCallTool_some, dispatch_search_users, wrapCatch_trace]
            exact readHandler_trace _ _ _ _)]
      simp [lookupKey, numOrDefault, hcount, min_def]

/-- Demo configuration for concrete witnesses: a non-empty API key, no
session cookie. -/
def demoApiState : ServerState := ⟨"test-key", none⟩

/-- Demo upstream success body. -/
def demoOkBody : Json := Json.obj [("data", Json.str "payload")]

/-- Demo oracle answering every request with a 2xx response. -/
def demoOkOracle : Oracle := fun _ => .ok demoOkBody

/-- Demo failed upstream response: a 401 whose body carries an error string. -/
def demoErrResp : Option (Nat × Json) := some (401, Json.obj [("error", Json.str "unauthorized")])

/-- Demo axios transport error message. -/
def demoAxMsg : String := "Request failed with status code 401"

/-- Demo oracle answering every request with the 401 failure. -/
def demoErrOracle : Oracle := fun _ => .err demoErrResp demoAxMsg

/-- Claim C1 (witness): count 500 on get_user_followers forwards exactly 100,
and an absent count on get_user_followers forwards the default 20. -/
theorem count_clamping_c1_witness :
    forwardedCountFor demoApiState demoOkOracle
      [("username", Json.str "bob"), ("count", Json.num 500)] "get_user_followers" =
      some (some (Json.num 100)) ∧
    forwardedCountFor demoApiState demoOkOracle
      [("username", Json.str "bob")] "get_user_followers" =
      some (some (Json.num 20)) := by
  constructor
  · have h := ((count_clamping_c1 demoApiState demoOkOracle
      [("username", Json.str "bob"), ("count", Json.num 500)] 500).1 rfl).2.2.2.1
    have hmin : min (500 : Int) 100 = 100 := by decide
    rw [hmin] at h
    exact h
  · exact ((count_clamping_c1 demoApiState demoOkOracle
      [("username", Json.str "bob")] 0).2 rfl).2.2.2.1

/-- Claim C2 (counterexample): with no session cookie held, create_tweet
surfaces ErrorCode.internalError, exactly the classification an upstream
failure on another operation surfaces, so the precondition failure is not a
classification distinct from upstream errors; it does issue zero upstream
requests. -/
theorem create_tweet_precondition_c2_counterexample :
    errCode (handleCallTool demoApiState demoErrOracle "create_tweet"
      (some [("text", Json.str "hello")])).result = some ErrorCode.internalError ∧
    errCode (handleCallTool demoApiState demoErrOracle "get_user_by_username"
      (some [("username", Json.str "bob")])).result = some ErrorCode.internalError ∧
    (handleCallTool demoApiState demoErrOracle "create_tweet"
      (some [("text", Json.str "hello")])).trace = [] :=
  ⟨rfl, rfl, rfl⟩

/-- Claim C2 (amended): invoking create_tweet while no session cookie is held
fails before any upstream call, with zero upstream requests, by throwing
"Must login first before creating tweets"; the dispatcher surfaces it as
ErrorCode.internalError, the same classification as upstream failures,
distinct from InvalidParams and MethodNotFound and distinguishable from an
upstream failure only by message text. -/
theorem create_tweet_precondition_c2 (st : ServerState) (oracle : Oracle)
    (bag : List (String × Json)) (h : cookieTruthy st.loginCookie = false) :
    (handleCallTool st oracle "create_tweet" (some bag)).trace = [] ∧
    (handleCallTool st oracle "create_tweet" (some bag)).result =
      .thrown (.mcpError .internalError
        "TwitterAPI.io error: Must login first before creating tweets") ∧
    ErrorCode.internalError ≠ ErrorCode.invalidParams ∧
    ErrorCode.internalError ≠ ErrorCode.methodNotFound := by
  have hct := createTweet_noauth st oracle (lookupKey bag "text") (lookupKey bag "reply_to") h
  refine ⟨?_, ?_, by decide, by decide⟩
  · rw [handleCallTool_some, dispatch_create_tweet, wrapCatch_trace, hct]
  · rw [handleCallTool_some, dispatch_create_tweet]
    exact wrapCatch_jsError _ _ (by rw [hct])

/-- Claim C2 (amended, witness): the amended statement at a concrete
unauthenticated state and argument bag. -/
theorem create_tweet_precondition_c2_witness :
    (handleCallTool demoApiState demoOkOracle "create_tweet"
      (some [("text", Json.str "hi")])).trace = [] ∧
    (handleCallTool demoApiState demoOkOracle "create_tweet"
      (some [("text", Json.str "hi")])).result =
      .thrown (.mcpError .internalError
        "TwitterAPI.io error: Must login first before creating tweets") ∧
    ErrorCode.internalError ≠ ErrorCode.invalidParams ∧
    ErrorCode.internalError ≠ ErrorCode.methodNotFound :=
  create_tweet_precondition_c2 demoApiState demoOkOracle [("text", Json.str "hi")] rfl

/-- Claim C3: a login_user invocation whose upstream request fails returns a
normal success-shaped envelope whose JSON payload is the object with success
false and the error message string, rather than a thrown failure; and under
the same failing upstream every other catalog operation ends in a thrown
InternalError, so login_user is the only operation converting upstream
failures. -/
theorem login_failure_envelope_c3 (st : ServerState) (oracle : Oracle)
    (bag : List (String × Json)) (resp : Option (Nat × Json)) (ax : String)
    (h : ∀ req, oracle req = .err resp ax) :
    (handleCallTool st oracle "login_user" (some bag)).result =
      .ok ⟨[Json.obj [("success", Json.bool false),
        ("error", Json.str (axiosFailMsg resp ax))]]⟩ ∧
    (∀ name, name ∈ catalogNames → name ≠ "login_user" → ∀ bag2 : List (String × Json),
      ∃ m, (handleCallTool st oracle name (some bag2)).result =
        .thrown (.mcpError .internalError m)) := by
  constructor
  · rw [handleCallTool_some, dispatch_login_user]
    exact wrapCatch_ok _ _ (loginUser_err st oracle _ _ resp ax (h _)).1
  · intro name hmem hne bag2
    simp only [catalogNames, List.mem_append, List.mem_cons, List.mem_singleton,
      List.not_mem_nil, or_false] at hmem
    rcases hmem with hr | hl | hc
    · exact ⟨_, handle_read_err st oracle bag2 name resp ax hr h⟩
    · exact absurd hl hne
    · subst hc
      by_cases hck : cookieTruthy st.loginCookie
      · refine ⟨"TwitterAPI.io error: " ++ axiosFailMsg resp ax, ?_⟩
        rw [handleCallTool_some, dispatch_create_tweet]
        exact wrapCatch_jsError _ _ (createTweet_auth_err st oracle _ _ resp ax hck h)
      · refine ⟨"TwitterAPI.io error: " ++ "Must login first before creating tweets", ?_⟩
        rw [handleCallTool_some, dispatch_create_tweet]
        exact wrapCatch_jsError _ _
          (by rw [createTweet_noauth st oracle _ _ (by simpa using hck)])

/-- Claim C3 (witness): concrete failed login returns the success false
payload, while a read operation under the same failing upstream throws. -/
theorem login_failure_envelope_c3_witness :
    (handleCallTool demoApiState demoErrOracle "login_user"
      (some [("username", Json.str "u"), ("password", Json.str "p")])).result =
      .ok ⟨[Json.obj [("success", Json.bool false),
        ("error", Json.str (axiosFailMsg demoErrResp demoAxMsg))]]⟩ ∧
    (∃ m, (handleCallTool demoApiState demoErrOracle "search_tweets"
      (some [("query", Json.str "q")])).result =
        .thrown (.mcpError .internalError m)) := by
  have h := login_failure_envelope_c3 demoApiState demoErrOracle
    [("username", Json.str "u"), ("password", Json.str "p")] demoErrResp demoAxMsg
    (fun _ => rfl)
  exact ⟨h.1, h.2 "search_tweets" (by decide) (by decide) [("query", Json.str "q")]⟩

/-- Claim C4 (counterexample): search_tweets invoked with a present but empty
argument bag (so lacking its required query field) issues one upstream
request and does not fail with InvalidParams, refuting that a bag lacking a
required field yields InvalidParams with zero upstream calls. -/
theorem missing_required_field_c4_counterexample :
    (handleCallTool demoApiState demoOkOracle "search_tweets" (some [])).trace.length = 1 ∧
    errCode (handleCallTool demoApiState demoOkOracle "search_tweets" (some [])).result ≠
      some ErrorCode.invalidParams := by
  refine ⟨rfl, by decide⟩

/-- Claim C4 (amended): only a wholly missing arguments object fails with
InvalidParams (message "Missing arguments") and zero upstream calls; an
argument bag that merely lacks a required field is not rejected locally: the
dispatcher still issues the upstream request with the missing field
undefined, as search_tweets with no query shows. -/
theorem missing_required_field_c4 (st : ServerState) (oracle : Oracle) :
    (∀ name : String,
      (handleCallTool st oracle name none).result =
        .thrown (.mcpError .invalidParams "Missing arguments") ∧
      (handleCallTool st oracle name none).trace = []) ∧
    (∀ bag : List (String × Json), lookupKey bag "query" = none →
      ∃ req, (handleCallTool st oracle "search_tweets" (some bag)).trace = [req] ∧
        lookupKey req.params "query" = some none) := by
  constructor
  · intro name
    exact ⟨rfl, rfl⟩
  · intro bag hq
    refine ⟨mkGetRequest st "/tweet/advanced_search"
      [("query", lookupKey bag "query"),
       ("count", some (Json.num (min (numOrDefault (lookupKey bag "count") 10) 100))),
       ("result_type", some ((lookupKey bag "result_type").getD (Json.str "recent")))],
      ?_, ?_⟩
    · rw [handleCallTool_some, dispatch_search_tweets, wrapCatch_trace]
      exact readHandler_trace _ _ _ _
    · simp [mkGetRequest, lookupKey, hq]

/-- Claim C4 (amended, witness): the amended statement at a concrete state,
a concrete missing bag and the concrete empty search_tweets bag. -/
theorem missing_required_field_c4_witness :
    ((handleCallTool demoApiState demoOkOracle "get_user_tweets" none).result =
        .thrown (.mcpError .invalidParams "Missing arguments") ∧
      (handleCallTool demoApiState demoOkOracle "get_user_tweets" none).trace = []) ∧
    (∃ req, (handleCallTool demoApiState demoOkOracle "search_tweets" (some [])).trace = [req] ∧
      lookupKey req.params "query" = some none) := by
  have h := missing_required_field_c4 demoApiState demoOkOracle
  exact ⟨h.1 "get_user_tweets", h.2 [] rfl⟩

/-- Demo login response whose body carries a truthy cookie. -/
def demoLoginBody : Json :=
  Json.obj [("cookie", Json.str "session=abc"), ("user", Json.obj [("id", Json.str "1")])]

/-- Demo oracle answering every request with the login body. -/
def demoLoginOracle : Oracle := fun _ => .ok demoLoginBody

/-- Claim C5: every upstream request of any invocation carries the Cookie
header with the stored session cookie whenever one is held, regardless of the
operation, and carries the x-api-key header exactly when the configured API
key is non-empty; in particular a successful login whose response contains a
truthy cookie followed by create_tweet attaches that Cookie header to the
create_tweet upstream request. -/
theorem credential_headers_c5 (st : ServerState) (oracle : Oracle) :
    (∀ (name : String) (args : Option (List (String × Json))) (req : UpstreamRequest),
      req ∈ (handleCallTool st oracle name args).trace →
      (∀ v : Json, st.loginCookie = some v → jsTruthy v = true →
        ("Cookie", jsToString v) ∈ req.headers) ∧
      (("x-api-key", st.apiKey) ∈ req.headers ↔ st.apiKey ≠ "")) ∧
    (∀ (body v : Json) (bag1 bag2 : List (String × Json)),
      (∀ req, oracle req = .ok body) →
      Json.getField body "cookie" = some v → jsTruthy v = true →
      ∃ req2,
        (handleCallTool (afterCall st (handleCallTool st oracle "login_user" (some bag1)))
          oracle "create_tweet" (some bag2)).trace = [req2] ∧
        ("Cookie", jsToString v) ∈ req2.headers) := by
  constructor
  · intro name args req hmem
    have hh := mem_handleCallTool_headers st oracle name args req hmem
    rw [hh]
    exact ⟨fun v h1 h2 => mkHeaders_cookie_mem st v h1 h2, mkHeaders_apikey_iff st⟩
  · intro body v bag1 bag2 ho hcf hv
    have hlc : (handleCallTool st oracle "login_user" (some bag1)).cookie = some v := by
      rw [handleCallTool_some, wrapCatch_cookie, dispatch_login_user,
        (loginUser_ok st oracle _ _ body (ho _)).2, hcf]
      simp [hv]
    have hcook : (afterCall st (handleCallTool st oracle "login_user" (some bag1))).loginCookie
        = some v := by
      simp [afterCall, hlc]
    have hct : cookieTruthy (afterCall st
        (handleCallTool st oracle "login_user" (some bag1))).loginCookie = true := by
      rw [hcook]
      simpa [cookieTruthy] using hv
    refine ⟨mkPostRequest (afterCall st (handleCallTool st oracle "login_user" (some bag1)))
      "/create_tweet_v2"
      ([("text", lookupKey bag2 "text")] ++ (match lookupKey bag2 "reply_to" with
        | some w => if jsTruthy w then [("reply_to", some w)] else []
        | none => [])), ?_, ?_⟩
    · rw [handleCallTool_some, dispatch_create_tweet, wrapCatch_trace]
      exact createTweet_auth_trace _ oracle _ _ hct
    · exact mkHeaders_cookie_mem _ v hcook hv

/-- Claim C5 (witness): the header facts at a concrete request of a concrete
invocation, and the concrete login-then-post scenario. -/
theorem credential_headers_c5_witness :
    ((("x-api-key", demoApiState.apiKey) ∈
        (mkGetRequest demoApiState "/user/info" [("userName", some (Json.str "bob"))]).headers ↔
      demoApiState.apiKey ≠ "")) ∧
    (∃ req2,
      (handleCallTool (afterCall demoApiState (handleCallTool demoApiState demoLoginOracle
        "login_user" (some [("username", Json.str "u"), ("password", Json.str "p")])))
        demoLoginOracle "create_tweet" (some [("text", Json.str "hi")])).trace = [req2] ∧
      ("Cookie", jsToString (Json.str "session=abc")) ∈ req2.headers) := by
  constructor
  · have htr : (handleCallTool demoApiState demoLoginOracle "get_user_by_username"
        (some [("username", Json.str "bob")])).trace =
        [mkGetRequest demoApiState "/user/info" [("userName", some (Json.str "bob"))]] := rfl
    exact ((credential_headers_c5 demoApiState demoLoginOracle).1 "get_user_by_username"
      (some [("username", Json.str "bob")])
      (mkGetRequest demoApiState "/user/info" [("userName", some (Json.str "bob"))])
      (by rw [htr]; exact List.mem_singleton.2 rfl)).2
  · exact (credential_headers_c5 demoApiState demoLoginOracle).2 demoLoginBody
      (Json.str "session=abc") [("username", Json.str "u"), ("password", Json.str "p")]
      [("text", Json.str "hi")] (fun _ => rfl) rfl rfl

theorem handle_login_stores (st : ServerState) (oracle : Oracle) (bag : List (String × Json))
    (body v : Json)
    (ho : oracle (mkPostRequest st "/user_login_v2"
      [("userName", lookupKey bag "username"), ("password", lookupKey bag "password")]) =
        .ok body)
    (hcf : Json.getField body "cookie" = some v) (hv : jsTruthy v = true) :
    (handleCallTool st oracle "login_user" (some bag)).cookie = some v := by
  rw [handleCallTool_some, wrapCatch_cookie, dispatch_login_user,
    (loginUser_ok st oracle _ _ body ho).2, hcf]
  simp [hv]

/-- Claim C6: the session cookie is set exactly by login_user calls whose
upstream response body contains a truthy cookie value: such a login stores
the response cookie, overwriting whatever cookie the state held before
(second conjunct, for an arbitrary prior state); any call that changes the
cookie is such a login (first conjunct); no operation clears the cookie, and
once the session is authenticated it stays authenticated across every
reachable sequence of invocations. -/
theorem session_monotone_c6 :
    (∀ (st : ServerState) (oracle : Oracle) (name : String) (bag : List (String × Json)),
      (handleCallTool st oracle name (some bag)).cookie = st.loginCookie ∨
      (name = "login_user" ∧ ∃ body v,
        oracle (mkPostRequest st "/user_login_v2"
          [("userName", lookupKey bag "username"), ("password", lookupKey bag "password")]) =
            .ok body ∧
        Json.getField body "cookie" = some v ∧ jsTruthy v = true ∧
        (handleCallTool st oracle name (some bag)).cookie = some v)) ∧
    (∀ (st : ServerState) (oracle : Oracle) (bag : List (String × Json)) (body v : Json),
      oracle (mkPostRequest st "/user_login_v2"
        [("userName", lookupKey bag "username"), ("password", lookupKey bag "password")]) =
          .ok body →
      Json.getField body "cookie" = some v → jsTruthy v = true →
      (handleCallTool st oracle "login_user" (some bag)).cookie = some v) ∧
    (∀ (st : ServerState) (oracle : Oracle) (name : String),
      (handleCallTool st oracle name none).cookie = st.loginCookie) ∧
    (∀ (st : ServerState) (oracle : Oracle) (name : String)
        (args : Option (List (String × Json))),
      cookieTruthy st.loginCookie = true →
      cookieTruthy (handleCallTool st oracle name args).cookie = true) ∧
    (∀ (st : ServerState) (calls : List CallSpec),
      cookieTruthy st.loginCookie = true →
      cookieTruthy (runCalls st calls).loginCookie = true) :=
  ⟨handleCallTool_cookie_step, handle_login_stores, handleCallTool_cookie_noargs,
   cookieTruthy_step, fun st calls h => runCalls_cookieTruthy calls st h⟩

/-- Claim C6 (witness): a concrete login whose response carries a truthy
cookie overwrites a different previously held cookie, and an authenticated
state stays authenticated across a concrete sequence containing a read call
and a failing write call. -/
theorem session_monotone_c6_witness :
    (handleCallTool ⟨"test-key", some (Json.str "old-session")⟩ demoLoginOracle "login_user"
      (some [("username", Json.str "u"), ("password", Json.str "p")])).cookie =
      some (Json.str "session=abc") ∧
    cookieTruthy (runCalls ⟨"test-key", some (Json.str "session=abc")⟩
      [⟨"get_user_tweets", some [("username", Json.str "bob")], demoOkOracle⟩,
       ⟨"create_tweet", some [("text", Json.str "hi")], demoErrOracle⟩]).loginCookie = true :=
  ⟨session_monotone_c6.2.1 ⟨"test-key", some (Json.str "old-session")⟩ demoLoginOracle
    [("username", Json.str "u"), ("password", Json.str "p")] demoLoginBody
    (Json.str "session=abc") rfl rfl rfl,
   session_monotone_c6.2.2.2.2 ⟨"test-key", some (Json.str "session=abc")⟩
    [⟨"get_user_tweets", some [("username", Json.str "bob")], demoOkOracle⟩,
     ⟨"create_tweet", some [("text", Json.str "hi")], demoErrOracle⟩] rfl⟩

/-- Demo transport error message for a failure with no HTTP response. -/
def demoNetMsg : String := "Network Error"

/-- Demo oracle answering every request with a pure network failure. -/
def demoNetErrOracle : Oracle := fun _ => .err none demoNetMsg

/-- Claim C7: for every operation other than login_user, any upstream failure
(non-2xx response with a body, or a pure network/transport failure with no
response) is re-raised as the single InternalError kind, distinct from
MethodNotFound and InvalidParams; the message embeds the upstream HTTP status
whenever a response exists, and its human-readable part is taken from the
error field of the upstream error body, or from the transport error message
when no usable body exists. -/
theorem upstream_error_mapping_c7 (st : ServerState) (oracle : Oracle)
    (bag : List (String × Json)) (resp : Option (Nat × Json)) (ax : String)
    (h : ∀ req, oracle req = .err resp ax) :
    (∀ name, name ∈ readOpNames →
      (handleCallTool st oracle name (some bag)).result =
        .thrown (.mcpError .internalError
          ("TwitterAPI.io error: " ++ axiosFailMsg resp ax))) ∧
    (cookieTruthy st.loginCookie = true →
      (handleCallTool st oracle "create_tweet" (some bag)).result =
        .thrown (.mcpError .internalError
          ("TwitterAPI.io error: " ++ axiosFailMsg resp ax))) ∧
    (∀ (status : Nat) (ebody : Json), resp = some (status, ebody) →
      ∃ pre suf, "TwitterAPI.io error: " ++ axiosFailMsg resp ax =
        pre ++ toString status ++ suf) ∧
    (∀ (m : String) (status : Nat), m ≠ "" →
      upstreamErrField (some (status, Json.obj [("error", Json.str m)])) ax = m) ∧
    upstreamErrField none ax = ax ∧
    ErrorCode.internalError ≠ ErrorCode.methodNotFound ∧
    ErrorCode.internalError ≠ ErrorCode.invalidParams := by
  refine ⟨?_, ?_, ?_, ?_, rfl, by decide, by decide⟩
  · intro name hmem
    exact handle_read_err st oracle bag name resp ax hmem h
  · intro hck
    rw [handleCallTool_some, dispatch_create_tweet]
    exact wrapCatch_jsError _ _ (createTweet_auth_err st oracle _ _ resp ax hck h)
  · intro status ebody hr
    subst hr
    refine ⟨"TwitterAPI.io error: " ++ "TwitterAPI.io API error (",
      "): " ++ upstreamErrField (some (status, ebody)) ax, ?_⟩
    simp only [axiosFailMsg, upstreamErrorMessage, upstreamStatusCode, String.append_assoc]
    rfl
  · intro m status hm
    simp [upstreamErrField, Json.getField, lookupKey, jsTruthy, jsToString, hm]

/-- Claim C7 (witness): the mapping at a concrete read call under a concrete
401 failure with a body, the same mapping under a concrete network failure
with no response, and the error-field extraction at the concrete body. -/
theorem upstream_error_mapping_c7_witness :
    (handleCallTool demoApiState demoErrOracle "get_user_by_id"
      (some [("user_id", Json.str "42")])).result =
      .thrown (.mcpError .internalError
        ("TwitterAPI.io error: " ++ axiosFailMsg demoErrResp demoAxMsg)) ∧
    (handleCallTool demoApiState demoNetErrOracle "get_user_by_id"
      (some [("user_id", Json.str "42")])).result =
      .thrown (.mcpError .internalError
        ("TwitterAPI.io error: " ++ axiosFailMsg none demoNetMsg)) ∧
    upstreamErrField (some (401, Json.obj [("error", Json.str "unauthorized")])) demoAxMsg =
      "unauthorized" := by
  have h1 := upstream_error_mapping_c7 demoApiState demoErrOracle
    [("user_id", Json.str "42")] demoErrResp demoAxMsg (fun _ => rfl)
  have h2 := upstream_error_mapping_c7 demoApiState demoNetErrOracle
    [("user_id", Json.str "42")] none demoNetMsg (fun _ => rfl)
  exact ⟨h1.1 "get_user_by_id" (by decide), h2.1 "get_user_by_id" (by decide),
    h1.2.2.2.1 "unauthorized" 401 (by decide)⟩

/-- Claim C8: for every read operation and every upstream response body, the
returned envelope contains exactly one text block and its payload is exactly
the upstream response body, with no field dropped, renamed or reordered
(object fields are an ordered list, so equality is order-preserving
passthrough). -/
theorem read_passthrough_c8 (st : ServerState) (oracle : Oracle) (body : Json)
    (h : ∀ req, oracle req = .ok body) :
    ∀ name, name ∈ readOpNames → ∀ bag : List (String × Json),
      (handleCallTool st oracle name (some bag)).result = .ok ⟨[body]⟩ :=
  fun name hmem bag => handle_read_ok st oracle bag name body hmem h

/-- Claim C8 (witness): the passthrough at a concrete read call and body. -/
theorem read_passthrough_c8_witness :
    (handleCallTool demoApiState demoOkOracle "get_tweet_by_id"
      (some [("tweet_id", Json.str "7")])).result = .ok ⟨[demoOkBody]⟩ :=
  read_passthrough_c8 demoApiState demoOkOracle demoOkBody (fun _ => rfl)
    "get_tweet_by_id" (by decide) [("tweet_id", Json.str "7")]

/-- Claim C10: a login_user call whose upstream request fails leaves the
stored session cookie exactly as it was before the call: a failed re-login
never clears or alters an existing session and a failed first login leaves
the state unauthenticated. -/
theorem login_failure_atomic_c10 (st : ServerState) (oracle : Oracle)
    (bag : List (String × Json)) (resp : Option (Nat × Json)) (ax : String)
    (h : ∀ req, oracle req = .err resp ax) :
    (handleCallTool st oracle "login_user" (some bag)).cookie = st.loginCookie := by
  rw [handleCallTool_some, wrapCatch_cookie, dispatch_login_user]
  exact (loginUser_err st oracle _ _ resp ax (h _)).2

/-- Claim C10 (witness): a failed re-login at a concrete authenticated state
keeps the old cookie. -/
theorem login_failure_atomic_c10_witness :
    (handleCallTool ⟨"test-key", some (Json.str "old-session")⟩ demoErrOracle "login_user"
      (some [("username", Json.str "u"), ("password", Json.str "p")])).cookie =
      some (Json.str "old-session") :=
  login_failure_atomic_c10 ⟨"test-key", some (Json.str "old-session")⟩ demoErrOracle
    [("username", Json.str "u"), ("password", Json.str "p")] demoErrResp demoAxMsg
    (fun _ => rfl)
